import Mathlib

set_option allowUnsafeReducibility true

attribute [semireducible] Rat.add Rat.mul Rat.inv Rat.sub Rat.ofScientific

/-!
# Verification of the survey data-cleaning pipeline

This file shallowly embeds the data loading / cleaning / banding pipeline of
the student-survey dashboard repository and proves, or refutes, the frozen
claims about it.

Two variants of `load_and_clean_data` exist in the sources and both are
modelled here:

* `spLoad` embeds `StudentPerformance.py` (first variant, lines 16-85):
  attendance is string-cleaned (`str.replace('%','')`) and coerced, mean
  imputed, then binned with `pd.cut(..., right=True, include_lowest=True)`;
  social-media hours and family income are binned with a dynamic top
  boundary `max(column) + 1`; band columns are `astype(str)` and `'nan'`
  entries are replaced with the column's `mode()[0]`; finally `CGPA` and
  `Gender` are imputed (mean for numeric dtype, `mode()[0]` for object).
* `appLoad` embeds `app.py` (lines 23-82): rows are filtered to
  `admission_year == 2021` first, then four numeric columns are coerced
  with `pd.to_numeric(errors='coerce')` (no `%` stripping) and mean
  imputed, then binned with `right=False`; `'nan'` band entries are
  replaced with the literal string `"Unknown"`.

Machine floats are modelled as `ℚ`; a missing value (`NaN`) is `none` of an
`Option`.  Operations that make pandas raise (`mode()[0]` on an empty
column via `IndexError`, `pd.cut` on a non-monotone dynamic bin list via
`ValueError`) make the model return `none` for the whole load.
-/

/-- Numeric value of a decimal digit character. -/
def charDigit (c : Char) : Nat := c.toNat - 48

/-- Value of a big-endian list of decimal digits. -/
def natOfDigits (ds : List Nat) : Nat := ds.foldl (fun a d => 10 * a + d) 0

/-- Parse an unsigned decimal literal (`"70"`, `"70.01"`, `".5"`, `"5."`).
Any other character makes the parse fail.  This is the decimal fragment of
the float parsing performed by `pd.to_numeric`. -/
def parseUnsigned (cs : List Char) : Option ℚ :=
  let ip := cs.takeWhile Char.isDigit
  match cs.dropWhile Char.isDigit with
  | [] => if ip.isEmpty then none else some ((natOfDigits (ip.map charDigit) : ℚ))
  | c :: fp =>
      if c == '.' && fp.all Char.isDigit && !(ip.isEmpty && fp.isEmpty) then
        some ((natOfDigits (ip.map charDigit) : ℚ) +
          (natOfDigits (fp.map charDigit) : ℚ) / ((10 : ℚ) ^ fp.length))
      else none

/-- Model of `pd.to_numeric(x, errors='coerce')` on a string cell: an
optionally signed decimal literal parses to its value, anything else
coerces to null (`none`); it never fails. -/
def parseRat (s : String) : Option ℚ :=
  match s.toList with
  | [] => none
  | c :: cs =>
      if c == '-' then (parseUnsigned cs).map Neg.neg
      else if c == '+' then parseUnsigned cs
      else parseUnsigned (c :: cs)

/-- Model of `.str.replace('%', '')`: removes every `'%'` character. -/
def stripPercent (s : String) : String := ⟨s.toList.filter (fun c => c != '%')⟩

/-- Strict lexicographic comparison of character lists by Unicode code
point, i.e. Python's `<` on strings, the order in which pandas sorts
object-dtype string values. -/
def strLtb : List Char → List Char → Bool
  | [], [] => false
  | [], _ :: _ => true
  | _ :: _, [] => false
  | a :: as, b :: bs =>
      if a.toNat < b.toNat then true
      else if b.toNat < a.toNat then false
      else strLtb as bs

/-- Non-strict string comparison (Python `<=` on strings). -/
def strLeb : List Char → List Char → Bool
  | [], _ => true
  | _ :: _, [] => false
  | a :: as, b :: bs =>
      if a.toNat < b.toNat then true
      else if b.toNat < a.toNat then false
      else strLeb as bs

/-- Non-strict string comparison on `String`. -/
def strLe (s t : String) : Bool := strLeb s.toList t.toList

/-- Smaller of two strings under `strLe`. -/
def strMin (s t : String) : String := if strLe s t then s else t

/-- Largest count any element attains in `v` (`0` for the empty list). -/
def maxCount (v : List String) : Nat := (v.map (fun s => v.count s)).foldl max 0

/-- Smallest string of a list, `none` for the empty list. -/
def minString : List String → Option String
  | [] => none
  | s :: rest => some (rest.foldl strMin s)

/-- Model of `Series.mode()[0]` on an object-dtype column: the most
frequent non-null value; `mode()` returns the modal values sorted
ascending, so a tie is resolved to the smallest string.  `none` models the
`IndexError` raised by `mode()[0]` when there is no non-null value. -/
def pdModeStr (xs : List (Option String)) : Option String :=
  let v := xs.reduceOption
  minString (v.filter (fun s => v.count s == maxCount v))

/-- Modelled from the spec's words, for comparison with `pdModeStr` (the
behaviour of the source): the spec's tie policy picks the most frequent
non-null value, ties broken by the first-encountered value in column scan
order. -/
def specModeFirstSeen (xs : List (Option String)) : Option String :=
  let v := xs.reduceOption
  v.find? (fun s => v.count s == maxCount v)

/-- Model of `Series.mode()[0]` on a categorical column whose declared
categories are `order`: modal values are sorted in category order, so the
first category (in declared order) attaining the maximal count is
returned.  `none` models the `IndexError` on an all-null column. -/
def modeCat (order : List String) (xs : List (Option String)) : Option String :=
  let v := xs.reduceOption
  if v.isEmpty then none
  else (order.filter (fun s => v.count s == maxCount v)).head?

/-- Arithmetic mean of a list of rationals. -/
def meanRat (l : List ℚ) : ℚ := l.sum / (l.length : ℚ)

/-- Model of `Series.mean()` (skips nulls): `none` when every value is
null, which pandas reports as `NaN`. -/
def meanOpt (xs : List (Option ℚ)) : Option ℚ :=
  if (xs.reduceOption).isEmpty then none else some (meanRat xs.reduceOption)

/-- Model of `col.fillna(col.mean())`: each null is replaced by the mean
of the non-null values of the original column; the mean is computed once,
before any replacement.  When the column has no non-null value the mean is
`NaN` and `fillna` leaves the column unchanged. -/
def fillnaMean (xs : List (Option ℚ)) : List (Option ℚ) :=
  if (xs.reduceOption).isEmpty then xs
  else xs.map (fun x => some (x.getD (meanRat xs.reduceOption)))

/-- Interval lookup for `pd.cut` past the first interval: with
`right := true` the intervals are `(lo, hi]`, with `right := false` they
are `[lo, hi)`. -/
def cutRest (rc : Bool) (x : ℚ) : ℚ → List ℚ → List String → Option String
  | lo, hi :: bs, lab :: ls =>
      if (if rc then lo < x ∧ x ≤ hi else lo ≤ x ∧ x < hi) then some lab
      else cutRest rc x hi bs ls
  | _, _, _ => none

/-- Model of `pd.cut(x, bins, labels, right := rc, include_lowest := True)`
on one value: the first interval always contains its left edge
(`include_lowest`), later intervals follow the `right` policy; a value in
no interval gets a null label. -/
def pdCut (rc : Bool) (bins : List ℚ) (labels : List String) (x : ℚ) : Option String :=
  match bins, labels with
  | b0 :: b1 :: bs, lab :: ls =>
      if (if rc then b0 ≤ x ∧ x ≤ b1 else b0 ≤ x ∧ x < b1) then some lab
      else cutRest rc x b1 bs ls
  | _, _ => none

/-- Model of `Series.max()` (skips nothing here: applied to the non-null
values); `none` for an empty list, which pandas reports as `NaN`. -/
def listMax : List ℚ → Option ℚ
  | [] => none
  | a :: rest => some (rest.foldl max a)

/-- Whether a bin list is strictly increasing; `pd.cut` raises
`ValueError` ("bins must increase monotonically") otherwise. -/
def chainLt : List ℚ → Bool
  | a :: b :: rest => if a < b then chainLt (b :: rest) else false
  | _ => true

/-- A dynamic bin list `base ++ [max(column) + 1]` as built by both source
files for the social-media and income bands.  `none` models the
`ValueError` that `pd.cut` raises when the column maximum is `NaN` (all
values null) or when the resulting bin list is not strictly increasing. -/
def dynBins (base : List ℚ) (xs : List (Option ℚ)) : Option (List ℚ) :=
  match listMax xs.reduceOption with
  | none => none
  | some m => if chainLt (base ++ [m + 1]) then some (base ++ [m + 1]) else none

/-- Model of the band-column idiom of `StudentPerformance.py`:
`pd.cut(...)` then `.astype(str).replace('nan', col.mode()[0])`.  Null
band entries (null source value or out-of-range source value) are replaced
by the modal band.  `none` models the `IndexError` of `mode()[0]` when
every band entry is null. -/
def bandColumn (rc : Bool) (bins : List ℚ) (labels : List String)
    (xs : List (Option ℚ)) : Option (List String) :=
  let raw := xs.map (fun x => x.bind (pdCut rc bins labels))
  match modeCat labels raw with
  | none => none
  | some m => some (raw.map (fun b => b.getD m))

/-- Jointly non-null observations of two columns, the rows a
pairwise-complete correlation uses. -/
def jointObs (xs ys : List (Option ℚ)) : List (ℚ × ℚ) :=
  (xs.zip ys).filterMap (fun p =>
    match p.1, p.2 with
    | some a, some b => some (a, b)
    | _, _ => none)

/-- One entry of the pandas correlation matrix (`DataFrame.corr`),
represented exactly: `some (sxy, s)` encodes the Pearson value
`sxy / sqrt s` where `sxy` is the centred cross sum and
`s = sxx * syy` the product of the centred square sums.  The entry is
`none` (pandas `NaN`) when the pair has fewer than 2 jointly non-null
observations or when a column is constant on them; pandas never raises
here. -/
def corrEntry (xs ys : List (Option ℚ)) : Option (ℚ × ℚ) :=
  let ps := jointObs xs ys
  if ps.length < 2 then none
  else
    let n : ℚ := (ps.length : ℚ)
    let mx := (ps.map Prod.fst).sum / n
    let my := (ps.map Prod.snd).sum / n
    let sxy := (ps.map (fun p => (p.1 - mx) * (p.2 - my))).sum
    let sxx := (ps.map (fun p => (p.1 - mx) * (p.1 - mx))).sum
    let syy := (ps.map (fun p => (p.2 - my) * (p.2 - my))).sum
    if sxx = 0 ∨ syy = 0 then none else some (sxy, sxx * syy)

/-- Model of `df[fields].corr()`: every pair of listed columns gets an
entry, each computed independently from that pair alone. -/
def corrMatrix (cols : List (List (Option ℚ))) : List (List (Option (ℚ × ℚ))) :=
  cols.map (fun c1 => cols.map (fun c2 => corrEntry c1 c2))

/-- Insert a string into a `strLe`-sorted list. -/
def insertStr (a : String) : List String → List String
  | [] => [a]
  | b :: bs => if strLe a b then a :: b :: bs else b :: insertStr a bs

/-- Insertion sort by `strLe`, the ascending order in which pandas emits
groupby keys for an object-dtype column. -/
def sortStr : List String → List String
  | [] => []
  | a :: as => insertStr a (sortStr as)

/-- Model of `df.groupby(key)[val].mean()` on the columns used by the
pages: null keys are dropped, groups are the distinct observed keys in
ascending order, and each group's value is the mean of its non-null
values (`none`, i.e. `NaN`, when they are all null).  Groups are formed
from the rows, so only observed keys appear.  (For the banded columns the
declared categorical categories coincide with the observed values because
both sources rebuild the dtype with `astype(str)... .astype('category')`
after back-filling, so `observed=False` at `StudentPerformance.py`
page 3 iterates over exactly the observed categories as well.) -/
def groupbyMean (keys : List (Option String)) (vals : List (Option ℚ)) :
    List (String × Option ℚ) :=
  let pairs := (keys.zip vals).filterMap (fun p => p.1.map (fun k => (k, p.2)))
  let ks := sortStr (pairs.map Prod.fst).dedup
  ks.map (fun c => (c, meanOpt ((pairs.filter (fun p => p.1 == c)).map Prod.snd)))

/-- Kind of exception raised by `pd.read_csv`: a `UnicodeDecodeError` or
any other exception class. -/
inductive ExcKind where
  | unicodeErr
  | otherErr
  deriving DecidableEq

/-- A CSV source, characterised by what `pd.read_csv` does on it under
each of the three encodings: succeed with a table, or raise. -/
structure CsvSource (α : Type) where
  utf8 : Except ExcKind α
  latin1 : Except ExcKind α
  cp1252 : Except ExcKind α

/-- The encoding-fallback of `StudentPerformance.py` lines 18-25: try
UTF-8, on `UnicodeDecodeError` (only) try Latin-1, on `UnicodeDecodeError`
(only) try CP1252; any other exception, and any exception of the CP1252
attempt, propagates as-is — no wrapper error is ever constructed. -/
def spReadCsv {α : Type} (s : CsvSource α) : Except ExcKind α :=
  match s.utf8 with
  | Except.ok t => Except.ok t
  | Except.error ExcKind.unicodeErr =>
      match s.latin1 with
      | Except.ok t => Except.ok t
      | Except.error ExcKind.unicodeErr => s.cp1252
      | Except.error ExcKind.otherErr => Except.error ExcKind.otherErr
  | Except.error ExcKind.otherErr => Except.error ExcKind.otherErr

/-- The encoding-fallback of `app.py` lines 28-35: try UTF-8, on any
exception try Latin-1, on any exception report via `st.error` and return
an empty `DataFrame` (modelled `none`).  CP1252 is never attempted and no
error value is raised to the caller. -/
def appReadCsv {α : Type} (s : CsvSource α) : Option α :=
  match s.utf8 with
  | Except.ok t => some t
  | Except.error _ =>
      match s.latin1 with
      | Except.ok t => some t
      | Except.error _ => none

/-- One raw row of `StudentPerformance.py`'s table after renaming: the
columns its cleaning touches.  `Attendance` is the raw string cell;
`Social Media Hours` and `Family Income` are numeric-dtype columns in the
source (guarded by `np.issubdtype(..., np.number)`). -/
structure SpRow where
  cgpa : Option ℚ
  gender : Option String
  attendance : Option String
  socialMedia : Option ℚ
  familyIncome : Option ℚ
  deriving DecidableEq

/-- The cleaned table returned by `StudentPerformance.py`'s
`load_and_clean_data` (columns the claims mention). -/
structure SpTable where
  cgpa : List (Option ℚ)
  gender : List (Option String)
  attendanceNumeric : List (Option ℚ)
  attendanceCategory : List String
  socialMediaCategory : List String
  familyIncomeCategory : List String
  deriving DecidableEq

/-- Attendance coercion of `StudentPerformance.py` line 46-48:
`pd.to_numeric(df['Attendance'].astype(str).str.replace('%',''), errors='coerce')`. -/
def spAttendanceToNumeric (s : String) : Option ℚ := parseRat (stripPercent s)

/-- Bin boundaries of the attendance rule (`StudentPerformance.py` line 52). -/
def spAttBins : List ℚ := [0, 70, 85, 100]

/-- Labels of the attendance rule (`StudentPerformance.py` line 53). -/
def spAttLabels : List String := ["Low (<=70%)", "Medium (71-85%)", "High (>85%)"]

/-- Static part of the social-media bin list (`StudentPerformance.py` line 63). -/
def spSocialBase : List ℚ := [-1, 0, 2, 5]

/-- Labels of the social-media rule (`StudentPerformance.py` line 64). -/
def spSocialLabels : List String := ["0 hours", "1-2 hours", "3-5 hours", ">5 hours"]

/-- Static part of the income bin list (`StudentPerformance.py` line 73). -/
def spIncomeBase : List ℚ := [0, 50000, 150000]

/-- Labels of the income rule (`StudentPerformance.py` line 74). -/
def spIncomeLabels : List String := ["Low Income", "Medium Income", "High Income"]

/-- The coerced and mean-imputed `Attendance_numeric` column
(`StudentPerformance.py` lines 46-50). -/
def spAttNumericCol (rows : List SpRow) : List (Option ℚ) :=
  fillnaMean (rows.map (fun r => r.attendance.bind spAttendanceToNumeric))

/-- `Gender` imputation (`StudentPerformance.py` lines 81-83, object
dtype): if any value is null, nulls are filled with `mode()[0]`; `none`
models the `IndexError` when the whole column is null. -/
def spGenderFilled (g : List (Option String)) : Option (List (Option String)) :=
  if g.any (fun x => x.isNone) then
    match pdModeStr g with
    | none => none
    | some m => some (g.map (fun x => some (x.getD m)))
  else some g

/-- The cleaning pipeline of `StudentPerformance.py` lines 16-85 (first
variant) on the already-decoded, already-renamed table: attendance
coercion and mean imputation, the three band derivations with their
`mode()[0]` back-fill, then `CGPA` (mean) and `Gender` (mode) imputation.
`none` models the pandas exceptions noted on the helper definitions. -/
def spLoad (rows : List SpRow) : Option SpTable :=
  let attF := spAttNumericCol rows
  Option.bind (bandColumn true spAttBins spAttLabels attF) (fun attBand =>
  Option.bind (dynBins spSocialBase (rows.map (fun r => r.socialMedia))) (fun sBins =>
  Option.bind (bandColumn true sBins spSocialLabels (rows.map (fun r => r.socialMedia))) (fun socBand =>
  Option.bind (dynBins spIncomeBase (rows.map (fun r => r.familyIncome))) (fun iBins =>
  Option.bind (bandColumn true iBins spIncomeLabels (rows.map (fun r => r.familyIncome))) (fun incBand =>
  Option.bind (spGenderFilled (rows.map (fun r => r.gender))) (fun g =>
  some { cgpa := fillnaMean (rows.map (fun r => r.cgpa)),
         gender := g,
         attendanceNumeric := attF,
         attendanceCategory := attBand,
         socialMediaCategory := socBand,
         familyIncomeCategory := incBand }))))))

/-- One raw row of `app.py`'s table: the columns its cleaning touches.
The four numeric columns are raw cells fed to
`pd.to_numeric(errors='coerce')`. -/
structure AppRow where
  admissionYear : Option Int
  currentCgpa : Option String
  studyHoursDaily : Option String
  averageClassAttendance : Option String
  socialMediaHoursDaily : Option String
  deriving DecidableEq

/-- The cleaned table returned by `app.py`'s `load_and_clean_data`. -/
structure AppTable where
  currentCgpa : List (Option ℚ)
  studyHoursDaily : List (Option ℚ)
  averageClassAttendance : List (Option ℚ)
  socialMediaHoursDaily : List (Option ℚ)
  attendanceLevel : List String
  socialMediaCategory : List String
  deriving DecidableEq

/-- `TARGET_ADMISSION_YEAR` of `app.py` line 10. -/
def targetAdmissionYear : Int := 2021

/-- The row filter of `app.py` line 42:
`df['admission_year'] == TARGET_ADMISSION_YEAR` (a null year compares
unequal). -/
def appYearPred (r : AppRow) : Bool :=
  if r.admissionYear = some targetAdmissionYear then true else false

/-- Bin boundaries of `app.py`'s attendance rule (line 64). -/
def appAttBins : List ℚ := [0, 60, 80, 100]

/-- Labels of `app.py`'s attendance rule (line 65). -/
def appAttLabels : List String := ["Low Attendance", "Medium Attendance", "High Attendance"]

/-- Static part of `app.py`'s social-media bin list (line 72). -/
def appSocialBase : List ℚ := [-1, 1, 3, 6]

/-- Labels of `app.py`'s social-media rule (line 73). -/
def appSocialLabels : List String := ["Very Low (<1h)", "Low (1-3h)", "Medium (3-6h)", "High (>6h)"]

/-- The body of `app.py`'s `load_and_clean_data` after the year filter
(lines 47-82): numeric coercion (no `%` stripping) and mean imputation of
the four configured columns, then the two band derivations, whose
`astype(str).replace('nan', 'Unknown')` turns every null band into the
literal string `"Unknown"`.  The social bins use
`df_filtered['social_media_hours_daily'].max() + 1` computed on the
already-imputed column. -/
def appLoadCore (f : List AppRow) : Option AppTable :=
  let cgpaF := fillnaMean (f.map (fun r => r.currentCgpa.bind parseRat))
  let studyF := fillnaMean (f.map (fun r => r.studyHoursDaily.bind parseRat))
  let attF := fillnaMean (f.map (fun r => r.averageClassAttendance.bind parseRat))
  let socF := fillnaMean (f.map (fun r => r.socialMediaHoursDaily.bind parseRat))
  match dynBins appSocialBase socF with
  | none => none
  | some sBins =>
      some { currentCgpa := cgpaF,
             studyHoursDaily := studyF,
             averageClassAttendance := attF,
             socialMediaHoursDaily := socF,
             attendanceLevel :=
               attF.map (fun x => (x.bind (pdCut false appAttBins appAttLabels)).getD "Unknown"),
             socialMediaCategory :=
               socF.map (fun x => (x.bind (pdCut false sBins appSocialLabels)).getD "Unknown") }

/-- `app.py`'s `load_and_clean_data` on the already-decoded table: the
`df.empty` early return (line 37), then the admission-year filter
(lines 41-45), then `appLoadCore`. -/
def appLoad (rows : List AppRow) : Option AppTable :=
  if rows.isEmpty then
    some { currentCgpa := [], studyHoursDaily := [], averageClassAttendance := [],
           socialMediaHoursDaily := [], attendanceLevel := [], socialMediaCategory := [] }
  else appLoadCore (rows.filter appYearPred)

/-- Model of the `@st.cache_data` memoization around `load_and_clean_data`
(`app.py` lines 22-23): the cache maps the function argument (the file
path, i.e. the identity of the source) to the computed table; a hit
returns the stored table without recomputing, a miss computes once and
stores.  `readRows` stands for the file system, fixed while the source is
unchanged. -/
def cachedLoad (cache : List (String × Option AppTable)) (p : String)
    (readRows : String → List AppRow) :
    Option AppTable × List (String × Option AppTable) :=
  match cache.lookup p with
  | some t => (t, cache)
  | none => (appLoad (readRows p), (p, appLoad (readRows p)) :: cache)

/-- A two-row input for `StudentPerformance.py`'s pipeline: the second
row's social-media value is null, exercising the modal back-fill. -/
def c1SpRows : List SpRow :=
  [{ cgpa := some 3, gender := some "Male", attendance := some "80",
     socialMedia := some 6, familyIncome := some 200000 },
   { cgpa := some 4, gender := some "Female", attendance := some "90",
     socialMedia := none, familyIncome := some 10000 }]

/-- The table `spLoad` produces on `c1SpRows`. -/
def c1SpTable : SpTable :=
  { cgpa := [some 3, some 4],
    gender := [some "Male", some "Female"],
    attendanceNumeric := [some 80, some 90],
    attendanceCategory := ["Medium (71-85%)", "High (>85%)"],
    socialMediaCategory := [">5 hours", ">5 hours"],
    familyIncomeCategory := ["High Income", "Low Income"] }

/-- A one-row input for `app.py`'s pipeline whose attendance value `100`
falls outside every right-open attendance interval. -/
def c1AppRows : List AppRow :=
  [{ admissionYear := some 2021, currentCgpa := some "3.5",
     studyHoursDaily := some "2", averageClassAttendance := some "100",
     socialMediaHoursDaily := some "8" }]

/-- The table `appLoad` produces on `c1AppRows`. -/
def c1AppTable : AppTable :=
  { currentCgpa := [some (7 / 2)],
    studyHoursDaily := [some 2],
    averageClassAttendance := [some 100],
    socialMediaHoursDaily := [some 8],
    attendanceLevel := ["Unknown"],
    socialMediaCategory := ["High (>6h)"] }

/-- A two-row input for `app.py`'s pipeline with one 2021 row and one
2020 row. -/
def c10Rows : List AppRow :=
  [{ admissionYear := some 2021, currentCgpa := some "3.5",
     studyHoursDaily := some "2", averageClassAttendance := some "90",
     socialMediaHoursDaily := some "8" },
   { admissionYear := some 2020, currentCgpa := some "1",
     studyHoursDaily := some "9", averageClassAttendance := some "50",
     socialMediaHoursDaily := some "7" }]

/-- `strLeb` is reflexive. -/
theorem strLeb_refl (l : List Char) : strLeb l l = true := by
  induction l with
  | nil => rfl
  | cons a as ih => simp [strLeb, ih]

/-- `strLeb` is total. -/
theorem strLeb_total (l1 : List Char) : ∀ l2, strLeb l1 l2 = true ∨ strLeb l2 l1 = true := by
  induction l1 with
  | nil => intro l2; left; rfl
  | cons a as ih =>
      intro l2
      cases l2 with
      | nil => right; rfl
      | cons b bs =>
          rcases Nat.lt_trichotomy a.toNat b.toNat with h | h | h
          · left; simp [strLeb, h]
          · rcases ih bs with h2 | h2
            · left; simp [strLeb, h, h2]
            · right; simp [strLeb, h, h2]
          · right; simp [strLeb, h]

/-- `strLeb` is transitive. -/
theorem strLeb_trans (l1 : List Char) : ∀ l2 l3, strLeb l1 l2 = true → strLeb l2 l3 = true →
    strLeb l1 l3 = true := by
  induction l1 with
  | nil => intro l2 l3 h1 h2; rfl
  | cons a as ih =>
      intro l2 l3 h1 h2
      cases l2 with
      | nil => simp [strLeb] at h1
      | cons b bs =>
          cases l3 with
          | nil => simp [strLeb] at h2
          | cons c cs =>
              rcases Nat.lt_trichotomy a.toNat b.toNat with hab | hab | hab
              · rcases Nat.lt_trichotomy b.toNat c.toNat with hbc | hbc | hbc
                · simp [strLeb, Nat.lt_trans hab hbc]
                · have hac : a.toNat < c.toNat := by omega
                  simp [strLeb, hac]
                · exfalso
                  simp [strLeb, Nat.lt_asymm hbc, hbc] at h2
              · rcases Nat.lt_trichotomy b.toNat c.toNat with hbc | hbc | hbc
                · have hac : a.toNat < c.toNat := by omega
                  simp [strLeb, hac]
                · have hac : a.toNat = c.toNat := by omega
                  simp [strLeb, hab] at h1
                  simp [strLeb, hbc] at h2
                  simp [strLeb, hac]
                  exact ih bs cs h1 h2
                · exfalso
                  simp [strLeb, Nat.lt_asymm hbc, hbc] at h2
              · exfalso
                simp [strLeb, Nat.lt_asymm hab, hab] at h1

/-- `strLe` is reflexive. -/
theorem strLe_refl (s : String) : strLe s s = true := strLeb_refl _

/-- `strLe` is total. -/
theorem strLe_total (s t : String) : strLe s t = true ∨ strLe t s = true :=
  strLeb_total _ _

/-- `strLe` is transitive. -/
theorem strLe_trans {a b c : String} (h1 : strLe a b = true) (h2 : strLe b c = true) :
    strLe a c = true := strLeb_trans _ _ _ h1 h2

/-- `strMin` is below its left argument. -/
theorem strMin_le_left (s t : String) : strLe (strMin s t) s = true := by
  unfold strMin
  split
  · exact strLe_refl s
  · next hn =>
      rcases strLe_total s t with h | h
      · exact absurd h hn
      · exact h

/-- `strMin` is below its right argument. -/
theorem strMin_le_right (s t : String) : strLe (strMin s t) t = true := by
  unfold strMin
  split
  · assumption
  · exact strLe_refl t

/-- A `strMin`-fold returns its seed or a list element. -/
theorem foldl_strMin_mem (l : List String) : ∀ s : String,
    l.foldl strMin s = s ∨ l.foldl strMin s ∈ l := by
  induction l with
  | nil => intro s; left; rfl
  | cons a as ih =>
      intro s
      simp only [List.foldl_cons]
      rcases ih (strMin s a) with h | h
      · rw [h]
        unfold strMin
        split
        · left; rfl
        · right; exact List.mem_cons_self _ _
      · right; exact List.mem_cons_of_mem _ h

/-- A `strMin`-fold is below its seed. -/
theorem foldl_strMin_le_init (l : List String) : ∀ s : String,
    strLe (l.foldl strMin s) s = true := by
  induction l with
  | nil => intro s; exact strLe_refl s
  | cons a as ih =>
      intro s
      simp only [List.foldl_cons]
      exact strLe_trans (ih (strMin s a)) (strMin_le_left s a)

/-- A `strMin`-fold is below every list element. -/
theorem foldl_strMin_le_mem (l : List String) : ∀ (s x : String), x ∈ l →
    strLe (l.foldl strMin s) x = true := by
  induction l with
  | nil => intro s x hx; cases hx
  | cons a as ih =>
      intro s x hx
      simp only [List.foldl_cons]
      rcases List.mem_cons.mp hx with rfl | hx2
      · exact strLe_trans (foldl_strMin_le_init as (strMin s x)) (strMin_le_right s x)
      · exact ih (strMin s a) x hx2

/-- `minString` returns a member of the list. -/
theorem minString_mem {l : List String} {m : String} (h : minString l = some m) : m ∈ l := by
  cases l with
  | nil => simp [minString] at h
  | cons s rest =>
      simp only [minString, Option.some.injEq] at h
      rcases foldl_strMin_mem rest s with h2 | h2
      · rw [← h, h2]; exact List.mem_cons_self _ _
      · rw [← h]; exact List.mem_cons_of_mem _ h2

/-- `minString` returns a lower bound of the list. -/
theorem minString_le {l : List String} {m : String} (h : minString l = some m) :
    ∀ x ∈ l, strLe m x = true := by
  cases l with
  | nil => simp [minString] at h
  | cons s rest =>
      simp only [minString, Option.some.injEq] at h
      intro x hx
      rcases List.mem_cons.mp hx with rfl | hx2
      · rw [← h]; exact foldl_strMin_le_init rest x
      · rw [← h]; exact foldl_strMin_le_mem rest s x hx2

/-- Elements of a list, and values below the seed, bound a `max`-fold from
below. -/
theorem le_foldl_max (l : List Nat) : ∀ (init x : Nat), (x ∈ l ∨ x ≤ init) →
    x ≤ l.foldl max init := by
  induction l with
  | nil =>
      intro init x h
      rcases h with h | h
      · cases h
      · simpa using h
  | cons a as ih =>
      intro init x h
      simp only [List.foldl_cons]
      rcases h with h | h
      · rcases List.mem_cons.mp h with rfl | h2
        · exact ih (max init x) x (Or.inr (le_max_right init x))
        · exact ih _ x (Or.inl h2)
      · exact ih _ x (Or.inr (le_trans h (le_max_left init a)))

/-- No element's count exceeds `maxCount`. -/
theorem count_le_maxCount {v : List String} {s : String} (h : s ∈ v) :
    v.count s ≤ maxCount v := by
  unfold maxCount
  exact le_foldl_max _ 0 _ (Or.inl (List.mem_map_of_mem (fun s => v.count s) h))

/-- A label produced by `cutRest` is one of the supplied labels. -/
theorem cutRest_mem {rc : Bool} {x : ℚ} (bs : List ℚ) : ∀ (lo : ℚ) (ls : List String) (s : String),
    cutRest rc x lo bs ls = some s → s ∈ ls := by
  induction bs with
  | nil => intro lo ls s h; simp [cutRest] at h
  | cons hi rest ih =>
      intro lo ls s h
      cases ls with
      | nil => simp [cutRest] at h
      | cons lab ls2 =>
          simp only [cutRest] at h
          by_cases hc : (if rc then lo < x ∧ x ≤ hi else lo ≤ x ∧ x < hi)
          · rw [if_pos hc] at h
            cases h
            exact List.mem_cons_self _ _
          · rw [if_neg hc] at h
            exact List.mem_cons_of_mem _ (ih hi ls2 s h)

/-- A label produced by `pdCut` is one of the supplied labels. -/
theorem pdCut_mem {rc : Bool} {bins : List ℚ} {labels : List String} {x : ℚ} {s : String}
    (h : pdCut rc bins labels x = some s) : s ∈ labels := by
  cases bins with
  | nil => simp [pdCut] at h
  | cons b0 rest =>
      cases rest with
      | nil => simp [pdCut] at h
      | cons b1 bs =>
          cases labels with
          | nil => simp [pdCut] at h
          | cons lab ls =>
              simp only [pdCut] at h
              by_cases hc : (if rc then b0 ≤ x ∧ x ≤ b1 else b0 ≤ x ∧ x < b1)
              · rw [if_pos hc] at h
                cases h
                exact List.mem_cons_self _ _
              · rw [if_neg hc] at h
                exact List.mem_cons_of_mem _ (cutRest_mem bs b1 ls s h)

/-- The categorical mode is one of the declared categories. -/
theorem modeCat_mem {order : List String} {xs : List (Option String)} {m : String}
    (h : modeCat order xs = some m) : m ∈ order := by
  simp only [modeCat] at h
  split at h
  · simp at h
  · cases hf : List.filter (fun s => xs.reduceOption.count s == maxCount xs.reduceOption) order with
    | nil => rw [hf] at h; simp at h
    | cons a t =>
        rw [hf] at h
        have ha : a = m := by simpa using h
        have hmem : a ∈ List.filter
            (fun s => xs.reduceOption.count s == maxCount xs.reduceOption) order := by
          rw [hf]; exact List.mem_cons_self a t
        exact ha ▸ List.mem_of_mem_filter hmem

/-- Every entry of a back-filled band column is a declared label. -/
theorem bandColumn_mem {rc : Bool} {bins : List ℚ} {labels : List String}
    {xs : List (Option ℚ)} {out : List String}
    (h : bandColumn rc bins labels xs = some out) : ∀ s ∈ out, s ∈ labels := by
  simp only [bandColumn] at h
  cases hm : modeCat labels (xs.map (fun x => x.bind (pdCut rc bins labels))) with
  | none => rw [hm] at h; simp at h
  | some md =>
      rw [hm] at h
      simp only [Option.some.injEq] at h
      intro s hs
      rw [← h] at hs
      rcases List.mem_map.mp hs with ⟨b, hb, rfl⟩
      cases b with
      | none => simpa using modeCat_mem hm
      | some lab =>
          rcases List.mem_map.mp hb with ⟨x, _, hxa⟩
          cases x with
          | none => simp at hxa
          | some v =>
              simp only [Option.some_bind] at hxa
              simpa using pdCut_mem hxa

/-- Membership in an `insertStr` result. -/
theorem mem_insertStr {x a : String} : ∀ {l : List String}, x ∈ insertStr a l ↔ x = a ∨ x ∈ l := by
  intro l
  induction l with
  | nil => simp [insertStr]
  | cons b bs ih =>
      simp only [insertStr]
      split
      · simp [List.mem_cons]
      · simp only [List.mem_cons, ih]
        tauto

/-- `sortStr` preserves membership. -/
theorem mem_sortStr {x : String} : ∀ {l : List String}, x ∈ sortStr l ↔ x ∈ l := by
  intro l
  induction l with
  | nil => simp [sortStr]
  | cons a as ih => simp [sortStr, mem_insertStr, ih]

/-- Claim C1, counterexample: in `app.py` a record whose attendance value
is exactly `100` (in range for an attendance percentage, but outside every
right-open interval of `bins = [0, 60, 80, 100]` with `right=False`) gets
the band string `"Unknown"`, which is not the table's modal band and lies
outside the rule's declared label set — refuting that a band is never
assigned a category outside the declared labels. -/
theorem c1_band_unknown_counterexample :
    (appLoad c1AppRows).map AppTable.attendanceLevel = some ["Unknown"] ∧
    "Unknown" ∉ appAttLabels := by
  constructor
  · decide
  · decide

/-- Claim C2, counterexample: `StudentPerformance.py` catches only
`UnicodeDecodeError`, so a UTF-8 attempt failing with any other exception
class propagates even though the Latin-1 attempt would succeed (first
conjunct: the result is the raw underlying error, not a success, and not
any `DecodingError` wrapper); and `app.py` never attempts CP1252: when
UTF-8 and Latin-1 both fail it returns an empty table even though the
CP1252 attempt would succeed. -/
theorem c2_decoding_counterexample :
    spReadCsv { utf8 := Except.error ExcKind.otherErr,
                latin1 := Except.ok 7, cp1252 := Except.ok 7 }
      = Except.error ExcKind.otherErr ∧
    spReadCsv { utf8 := Except.error ExcKind.otherErr,
                latin1 := Except.ok 7, cp1252 := Except.ok 7 }
      ≠ Except.ok 7 ∧
    appReadCsv { utf8 := Except.error ExcKind.unicodeErr,
                 latin1 := Except.error ExcKind.unicodeErr, cp1252 := Except.ok 9 }
      = none := by
  refine ⟨rfl, ?_, rfl⟩
  intro h
  exact Except.noConfusion h

/-- Claim C4: under the attendance band rule of `StudentPerformance.py`
(boundaries `[0, 70, 85, 100]`, right-closed), the boundary value `70`
receives `"Low (<=70%)"` and `70.01` receives `"Medium (71-85%)"` — both
as the bare rule and through the full pipeline. -/
theorem c4_attendance_boundary :
    pdCut true spAttBins spAttLabels 70 = some "Low (<=70%)" ∧
    pdCut true spAttBins spAttLabels (7001 / 100) = some "Medium (71-85%)" ∧
    (spLoad [{ cgpa := some 3, gender := some "Male", attendance := some "70",
               socialMedia := some 6, familyIncome := some 200000 },
             { cgpa := some 4, gender := some "Female", attendance := some "70.01",
               socialMedia := some 6, familyIncome := some 200000 }]).map
        SpTable.attendanceCategory
      = some ["Low (<=70%)", "Medium (71-85%)"] := by
  refine ⟨by decide, by decide, by decide⟩

/-- Claim C5, counterexample: with `Gender` column
`["Male", "Female", null]` the two non-null values tie for most frequent;
`StudentPerformance.py` imputes with `mode()[0]`, whose modal values are
sorted ascending, so the null becomes `"Female"`, while the claimed
first-encountered-in-scan-order tie-break would impute `"Male"`. -/
theorem c5_mode_tie_counterexample :
    (spLoad [{ cgpa := some 3, gender := some "Male", attendance := some "80",
               socialMedia := some 6, familyIncome := some 200000 },
             { cgpa := some 3, gender := some "Female", attendance := some "80",
               socialMedia := some 6, familyIncome := some 200000 },
             { cgpa := some 3, gender := none, attendance := some "80",
               socialMedia := some 6, familyIncome := some 200000 }]).map SpTable.gender
      = some [some "Male", some "Female", some "Female"] ∧
    specModeFirstSeen [some "Male", some "Female", none] = some "Male" ∧
    pdModeStr [some "Male", some "Female", none] = some "Female" ∧
    ("Male" : String) ≠ "Female" := by
  refine ⟨by decide, by decide, by decide, by decide⟩

/-- Claim C6, counterexample: `app.py` coerces
`average_class_attendance` with bare `pd.to_numeric(errors='coerce')` and
strips nothing, so the decorated value `"78%"` becomes null (and is then
mean-imputed — here to null, the column having no other value) instead of
parsing as `78` after stripping the `%` as the claim states for every
numeric field. -/
theorem c6_coercion_counterexample :
    parseRat "78%" = none ∧
    spAttendanceToNumeric "78%" = some 78 ∧
    (appLoad [{ admissionYear := some 2021, currentCgpa := some "3.5",
                studyHoursDaily := some "2", averageClassAttendance := some "78%",
                socialMediaHoursDaily := some "8" }]).map AppTable.averageClassAttendance
      = some [none] := by
  refine ⟨by decide, by decide, by decide⟩

/-- Claim C6, amended: numeric coercion never raises — an unparseable
string becomes null — but only the `Attendance` coercion of
`StudentPerformance.py` strips `%` decoration before parsing;
`app.py`'s numeric columns (and the other numeric coercions) parse the
raw cell directly, so a decorated value like `"78%"` coerces to null
there. -/
theorem c6_coercion_amended :
    spAttendanceToNumeric "78%" = some 78 ∧
    spAttendanceToNumeric "abc" = none ∧
    parseRat "78%" = none ∧
    parseRat "abc" = none ∧
    parseRat "78" = some 78 := by
  refine ⟨by decide, by decide, by decide, by decide, by decide⟩

/-- Claim C3: when a numeric column has at least one non-null value, mean
imputation preserves the column length, leaves every non-null entry
unchanged, and replaces every null entry by the arithmetic mean of the
original column's non-null values — the mean of the column as it was
before any replacement, so earlier imputations in the pass cannot affect
it. -/
theorem c3_mean_imputation (xs : List (Option ℚ)) (h : xs.reduceOption ≠ []) :
    (fillnaMean xs).length = xs.length ∧
    ∀ (i : Nat) (x0 : Option ℚ), xs.get? i = some x0 →
      (fillnaMean xs).get? i = some (some (x0.getD (meanRat xs.reduceOption))) := by
  have hne : ¬((xs.reduceOption).isEmpty = true) := by
    simpa [List.isEmpty_iff] using h
  unfold fillnaMean
  rw [if_neg hne]
  constructor
  · simp
  · intro i x0 hi
    rw [List.get?_map, hi]
    rfl

/-- Claim C3, witness: the column `[1.0, null, 3.0]` is imputed to
`[1.0, 2.0, 3.0]`. -/
theorem c3_mean_imputation_witness :
    ([some 1, none, some 3] : List (Option ℚ)).reduceOption ≠ [] ∧
    (fillnaMean [some 1, none, some 3]).get? 1 = some (some 2) := by
  refine ⟨by decide, ?_⟩
  have h := (c3_mean_imputation [some 1, none, some 3] (by decide)).2 1 none (by decide)
  rw [h]
  decide

/-- Claim C7: `load_and_clean_data` is a pure function of the decoded
rows memoized by `@st.cache_data` under its argument (the source's
identity): with an unchanged source, the first call computes
`appLoad (readRows p)` and the second call returns the very same table
from the cache, leaving the cache untouched (no recomputation, so the two
results are structurally identical — and the dynamic `max + 1` social
bucket boundary inside `appLoad` depends only on the same fixed input). -/
theorem c7_load_memoized (p : String) (readRows : String → List AppRow) :
    (cachedLoad [] p readRows).1 = appLoad (readRows p) ∧
    (cachedLoad (cachedLoad [] p readRows).2 p readRows).1 = (cachedLoad [] p readRows).1 ∧
    (cachedLoad (cachedLoad [] p readRows).2 p readRows).2 = (cachedLoad [] p readRows).2 := by
  refine ⟨rfl, ?_, ?_⟩ <;> simp [cachedLoad, List.lookup]

/-- Claim C8: the correlation matrix is total — it always has one row per
listed column, and the entry for a pair of columns is computed from that
pair alone (so an undefined pair cannot abort or perturb the rest of the
matrix); the entry for any pair with fewer than 2 jointly non-null
observations is the undefined value `none` (pandas `NaN`), the per-pair
insufficient-data report. -/
theorem c8_corr_insufficient_pair (cols : List (List (Option ℚ))) (i j : Nat)
    (c1 c2 : List (Option ℚ)) (h1 : cols.get? i = some c1) (h2 : cols.get? j = some c2) :
    ((corrMatrix cols).get? i).bind (fun row => row.get? j) = some (corrEntry c1 c2) ∧
    (corrMatrix cols).length = cols.length ∧
    ((jointObs c1 c2).length < 2 → corrEntry c1 c2 = none) := by
  refine ⟨?_, by simp [corrMatrix], ?_⟩
  · unfold corrMatrix
    rw [List.get?_map, h1, Option.map_some', Option.some_bind, List.get?_map, h2,
      Option.map_some']
  · intro h
    simp [corrEntry, h]

/-- Claim C8, witness: on two columns with no jointly non-null row the
pair's entry is `none` while the matrix is still fully built. -/
theorem c8_corr_insufficient_pair_witness :
    ((corrMatrix [[some 1, some 2, none], [none, none, some 5]]).get? 0).bind
        (fun row => row.get? 1)
      = some (corrEntry [some 1, some 2, none] [none, none, some 5]) ∧
    (corrMatrix [[some 1, some 2, none], [none, none, some 5]]).length
      = ([[some 1, some 2, none], [none, none, some 5]] : List (List (Option ℚ))).length ∧
    ((jointObs [some 1, some 2, none] [none, none, some 5]).length < 2 →
      corrEntry [some 1, some 2, none] [none, none, some 5] = none) :=
  c8_corr_insufficient_pair [[some 1, some 2, none], [none, none, some 5]] 0 1
    [some 1, some 2, none] [none, none, some 5] (by decide) (by decide)

/-- Claim C9: every group emitted by the groupby-mean aggregation
contains at least one record — its key occurs in the key column — so no
`(group, null)` pair for an empty group is ever emitted. -/
theorem c9_no_empty_groups (keys : List (Option String)) (vals : List (Option ℚ))
    (p : String × Option ℚ) (h : p ∈ groupbyMean keys vals) :
    0 < keys.count (some p.1) := by
  simp only [groupbyMean] at h
  rcases List.mem_map.mp h with ⟨c, hc, rfl⟩
  have hc2 := mem_sortStr.mp hc
  have hc3 := List.mem_dedup.mp hc2
  rcases List.mem_map.mp hc3 with ⟨pr, hpr, rfl⟩
  rcases List.mem_filterMap.mp hpr with ⟨q, hq, hq2⟩
  cases hk : q.1 with
  | none => rw [hk] at hq2; simp at hq2
  | some k =>
      rw [hk] at hq2
      simp only [Option.map_some'] at hq2
      injection hq2 with h3
      subst h3
      have hq1 : q.1 ∈ keys := by
        have h4 : (q.1, q.2) ∈ keys.zip vals := by simpa using hq
        exact (List.of_mem_zip h4).1
      rw [hk] at hq1
      rw [List.count_pos_iff]
      exact hq1

/-- Claim C9, witness: grouping `[Male, Female]` keys over `[3, 4]`
values, the `Male` group it emits has a record. -/
theorem c9_no_empty_groups_witness :
    0 < ([some "Male", some "Female"] : List (Option String)).count (some "Male") :=
  c9_no_empty_groups [some "Male", some "Female"] [some 3, some 4] ("Male", some 3) (by decide)

/-- Claim C10: in `app.py` the admission-year filter runs strictly before
numeric imputation, so the load is invariant under pre-filtering the rows
to the target year — rows of other years never influence the returned
table — and each imputed numeric column equals the mean-imputation of the
coerced column of the year-filtered subset alone.  (The hypothesis rules
out the degenerate case of no matching rows, where the second call would
take the `df.empty` early return.) -/
theorem c10_filter_before_imputation (rows : List AppRow)
    (h : rows.filter appYearPred ≠ []) :
    appLoad rows = appLoad (rows.filter appYearPred) ∧
    ∀ t, appLoad rows = some t →
      t.currentCgpa =
        fillnaMean ((rows.filter appYearPred).map (fun r => r.currentCgpa.bind parseRat)) ∧
      t.studyHoursDaily =
        fillnaMean ((rows.filter appYearPred).map (fun r => r.studyHoursDaily.bind parseRat)) ∧
      t.averageClassAttendance =
        fillnaMean ((rows.filter appYearPred).map
          (fun r => r.averageClassAttendance.bind parseRat)) ∧
      t.socialMediaHoursDaily =
        fillnaMean ((rows.filter appYearPred).map
          (fun r => r.socialMediaHoursDaily.bind parseRat)) := by
  have hrows : rows ≠ [] := by
    intro h0
    exact h (by rw [h0]; rfl)
  constructor
  · unfold appLoad
    rw [if_neg (by simp [List.isEmpty_iff, hrows]), if_neg (by simp [List.isEmpty_iff, h])]
    rw [List.filter_filter]
    simp only [Bool.and_self]
  · intro t ht
    unfold appLoad at ht
    rw [if_neg (by simp [List.isEmpty_iff, hrows])] at ht
    simp only [appLoadCore] at ht
    cases hdb : dynBins appSocialBase
        (fillnaMean ((rows.filter appYearPred).map
          (fun r => r.socialMediaHoursDaily.bind parseRat))) with
    | none => rw [hdb] at ht; simp at ht
    | some sb =>
        rw [hdb] at ht
        simp only [Option.some.injEq] at ht
        rw [← ht]
        exact ⟨rfl, rfl, rfl, rfl⟩

/-- Claim C10, witness: on a table with a 2021 row and a 2020 row,
loading the full table equals loading the pre-filtered table. -/
theorem c10_filter_before_imputation_witness :
    appLoad c10Rows = appLoad (c10Rows.filter appYearPred) :=
  (c10_filter_before_imputation c10Rows (by decide)).1

/-- Claim C2, amended: `app.py` treats any decoding exception uniformly
but only attempts UTF-8 then Latin-1, and on a second failure returns an
empty table rather than raising a `DecodingError` (CP1252 is never
tried); `StudentPerformance.py` attempts UTF-8, Latin-1, CP1252 in order
but falls through only on `UnicodeDecodeError` — any other exception
propagates immediately — and a final failure propagates the underlying
exception with no `DecodingError` wrapper.  Both proceed on the first
successful decode. -/
theorem c2_decoding_amended {α : Type} (s : CsvSource α) (t : α) :
    (s.utf8 = Except.ok t → spReadCsv s = Except.ok t ∧ appReadCsv s = some t) ∧
    (s.utf8 = Except.error ExcKind.unicodeErr → s.latin1 = Except.ok t →
      spReadCsv s = Except.ok t ∧ appReadCsv s = some t) ∧
    (s.utf8 = Except.error ExcKind.unicodeErr →
      s.latin1 = Except.error ExcKind.unicodeErr → spReadCsv s = s.cp1252) ∧
    (s.utf8 = Except.error ExcKind.otherErr →
      spReadCsv s = Except.error ExcKind.otherErr) ∧
    (∀ e, s.utf8 = Except.error e → s.latin1 = Except.ok t → appReadCsv s = some t) ∧
    (∀ e e2, s.utf8 = Except.error e → s.latin1 = Except.error e2 →
      appReadCsv s = none) := by
  refine ⟨?_, ?_, ?_, ?_, ?_, ?_⟩
  · intro h1
    exact ⟨by simp [spReadCsv, h1], by simp [appReadCsv, h1]⟩
  · intro h1 h2
    exact ⟨by simp [spReadCsv, h1, h2], by simp [appReadCsv, h1, h2]⟩
  · intro h1 h2
    simp [spReadCsv, h1, h2]
  · intro h1
    simp [spReadCsv, h1]
  · intro e h1 h2
    simp [appReadCsv, h1, h2]
  · intro e e2 h1 h2
    simp [appReadCsv, h1, h2]

/-- Claim C2, witness: a source whose UTF-8 attempt raises
`UnicodeDecodeError` and whose Latin-1 attempt succeeds is decoded by
both variants. -/
theorem c2_decoding_witness :
    spReadCsv { utf8 := Except.error ExcKind.unicodeErr, latin1 := Except.ok 7,
                cp1252 := Except.ok 7 } = Except.ok 7 ∧
    appReadCsv { utf8 := Except.error ExcKind.unicodeErr, latin1 := Except.ok 7,
                 cp1252 := Except.ok 7 } = some 7 :=
  (c2_decoding_amended { utf8 := Except.error ExcKind.unicodeErr, latin1 := Except.ok 7,
                         cp1252 := Except.ok 7 } 7).2.1 rfl rfl

/-- Claim C5, amended: categorical mode imputation uses `mode()[0]`: the
imputed value is a most frequent non-null value, and a tie between
several most frequent values is broken by taking the smallest string in
lexicographic (code point) order — pandas `mode()` sorts the modal values
ascending — not the first-encountered value in scan order.  The result is
still deterministic. -/
theorem c5_mode_tie_amended (xs : List (Option String)) (m : String)
    (h : pdModeStr xs = some m) :
    m ∈ xs.reduceOption ∧
    (∀ v ∈ xs.reduceOption, xs.reduceOption.count v ≤ xs.reduceOption.count m) ∧
    (∀ v ∈ xs.reduceOption, xs.reduceOption.count v = xs.reduceOption.count m →
      strLe m v = true) := by
  simp only [pdModeStr] at h
  have hm1 : m ∈ xs.reduceOption.filter
      (fun s => xs.reduceOption.count s == maxCount xs.reduceOption) := minString_mem h
  have hm2 : m ∈ xs.reduceOption := List.mem_of_mem_filter hm1
  have hmc : xs.reduceOption.count m = maxCount xs.reduceOption := by
    have := List.of_mem_filter hm1
    simpa using this
  refine ⟨hm2, ?_, ?_⟩
  · intro v hv
    calc xs.reduceOption.count v ≤ maxCount xs.reduceOption := count_le_maxCount hv
      _ = xs.reduceOption.count m := hmc.symm
  · intro v hv hcnt
    have hvf : v ∈ xs.reduceOption.filter
        (fun s => xs.reduceOption.count s == maxCount xs.reduceOption) := by
      apply List.mem_filter_of_mem hv
      simp [hcnt, hmc]
    exact minString_le h v hvf

/-- Claim C5, witness: on the tied column `["Male", "Female", null]` the
imputed value `"Female"` is a modal value and is the smaller of the tied
pair. -/
theorem c5_mode_tie_witness :
    "Female" ∈ ([some "Male", some "Female", none] : List (Option String)).reduceOption ∧
    strLe "Female" "Male" = true := by
  have h := c5_mode_tie_amended [some "Male", some "Female", none] "Female" (by decide)
  exact ⟨h.1, h.2.2 "Male" (by decide) (by decide)⟩

/-- Every entry of an `app.py`-style band column (null bands replaced by
the literal `"Unknown"`) is a declared label or `"Unknown"`. -/
theorem getD_unknown_mem {bins : List ℚ} {labels : List String} {xs : List (Option ℚ)}
    (s : String)
    (hs : s ∈ xs.map (fun x => (x.bind (pdCut false bins labels)).getD "Unknown")) :
    s ∈ labels ∨ s = "Unknown" := by
  rcases List.mem_map.mp hs with ⟨x, _, rfl⟩
  cases x with
  | none => right; rfl
  | some v =>
      simp only [Option.some_bind]
      cases hp : pdCut false bins labels v with
      | none => right; rfl
      | some lab =>
          left
          simpa using pdCut_mem hp

/-- Claim C1, amended: every derived band entry of every returned table
is a non-null string, but the two variants back-fill differently: in
`StudentPerformance.py` every band entry (including one derived from a
null source, which is back-filled with the band column's mode) lies in
the rule's declared label set; in `app.py` a null band entry becomes the
sentinel string `"Unknown"`, outside the declared label set, so entries
there lie in the label set extended by `"Unknown"`. -/
theorem c1_bands_total_amended (rs : List SpRow) (t : SpTable) (h1 : spLoad rs = some t)
    (rs2 : List AppRow) (t2 : AppTable) (h2 : appLoad rs2 = some t2) :
    (∀ s ∈ t.attendanceCategory, s ∈ spAttLabels) ∧
    (∀ s ∈ t.socialMediaCategory, s ∈ spSocialLabels) ∧
    (∀ s ∈ t.familyIncomeCategory, s ∈ spIncomeLabels) ∧
    (∀ s ∈ t2.attendanceLevel, s ∈ appAttLabels ∨ s = "Unknown") ∧
    (∀ s ∈ t2.socialMediaCategory, s ∈ appSocialLabels ∨ s = "Unknown") := by
  simp only [spLoad, Option.bind_eq_some, Option.some.injEq] at h1
  obtain ⟨attBand, hAtt, sBins, hsb, socBand, hSoc, iBins, hib, incBand, hInc, g, hg, hT⟩ := h1
  subst hT
  refine ⟨bandColumn_mem hAtt, bandColumn_mem hSoc, bandColumn_mem hInc, ?_, ?_⟩
  all_goals {
    unfold appLoad at h2
    by_cases he : rs2.isEmpty = true
    · rw [if_pos he] at h2
      simp only [Option.some.injEq] at h2
      rw [← h2]
      intro s hs
      cases hs
    · rw [if_neg he] at h2
      simp only [appLoadCore] at h2
      cases hdb : dynBins appSocialBase
          (fillnaMean ((rs2.filter appYearPred).map
            (fun r => r.socialMediaHoursDaily.bind parseRat))) with
      | none => rw [hdb] at h2; simp at h2
      | some sb =>
          rw [hdb] at h2
          simp only [Option.some.injEq] at h2
          rw [← h2]
          intro s hs
          exact getD_unknown_mem s hs
  }

/-- Claim C1, witness: concrete tables through both pipelines; a
`StudentPerformance.py` band entry lies in the declared labels and an
`app.py` band entry is a declared label or the sentinel. -/
theorem c1_bands_total_witness :
    ("Medium (71-85%)" ∈ spAttLabels) ∧
    (("Unknown" ∈ appAttLabels) ∨ "Unknown" = "Unknown") := by
  have h := c1_bands_total_amended c1SpRows c1SpTable (by decide) c1AppRows c1AppTable (by decide)
  exact ⟨h.1 "Medium (71-85%)" (by decide), h.2.2.2.1 "Unknown" (by decide)⟩
